import Mathlib

/-!
Shallow embedding of `mt5_executor.py`: a command-line bridge that checks
terminal connectivity or submits a single market order built from a JSON
signal.  The external MetaTrader5 terminal is modelled as a record of
response functions (`Terminal`); Python values appearing in signal fields
are modelled by `JVal`; Python's `float(...)` coercion, including the
distinction between `ValueError` (non-numeric string) and `TypeError`
(non-string, non-number argument), is modelled by `pyFloat`.
-/

namespace MT5

/-- A JSON value as it can appear in a signal field: a number, a string,
`null`, an array, or an object.  Arrays and objects carry no payload since
the program only ever passes them to `float(...)`, which fails uniformly. -/
inductive JVal where
  | num (q : ℚ)
  | str (s : String)
  | null
  | arr
  | obj
deriving DecidableEq, Repr

/-- Python exceptions the embedded code can raise: `ValueError` (caught by
the first handler in `execute_trade`) versus `TypeError` and bare
`Exception` (caught only by the generic `except Exception` handler). -/
inductive PyExc where
  | valueError (msg : String)
  | typeError (msg : String)
deriving DecidableEq, Repr

/-- Numeric value of a list of decimal digit characters. -/
def natOfDigits (l : List Char) : ℕ :=
  l.foldl (fun a c => 10 * a + (c.toNat - 48)) 0

/-- Parse a string as a decimal floating-point literal the way Python's
`float` does on the cases that matter here: optional surrounding
whitespace, optional sign, digits with at most one decimal point. -/
def parseFloat? (s : String) : Option ℚ :=
  let t := ((s.toList.dropWhile Char.isWhitespace).reverse.dropWhile Char.isWhitespace).reverse
  let signed : ℚ × List Char :=
    match t with
    | '-' :: rest => (-1, rest)
    | '+' :: rest => (1, rest)
    | l => (1, l)
  match signed.2.splitOn '.' with
  | [a] =>
      if a ≠ [] ∧ a.all Char.isDigit then
        some (signed.1 * (natOfDigits a : ℚ))
      else none
  | [a, b] =>
      if (a ≠ [] ∨ b ≠ []) ∧ a.all Char.isDigit ∧ b.all Char.isDigit then
        some (signed.1 * ((natOfDigits a : ℚ) + (natOfDigits b : ℚ) / 10 ^ b.length))
      else none
  | _ => none

/-- Message of the `TypeError` raised by Python's `float` on a non-string,
non-number argument of the given type name. -/
def floatTypeErrMsg (tyname : String) : String :=
  "float() argument must be a string or a real number, not '" ++ tyname ++ "'"

/-- Python's `float(v)` on a signal field value: numbers convert, strings
are parsed (`ValueError` on failure), and `null`/arrays/objects raise
`TypeError`. -/
def pyFloat : JVal → Except PyExc ℚ
  | .num q => .ok q
  | .str s =>
      match parseFloat? s with
      | some q => .ok q
      | none => .error (.valueError ("could not convert string to float: '" ++ s ++ "'"))
  | .null => .error (.typeError (floatTypeErrMsg "NoneType"))
  | .arr => .error (.typeError (floatTypeErrMsg "list"))
  | .obj => .error (.typeError (floatTypeErrMsg "dict"))

/-- Python's `v == 'BUY'`: true exactly when `v` is the string `"BUY"`. -/
def jIsBUY : JVal → Bool
  | .str s => s = "BUY"
  | _ => false

/-- The inbound signal (`signal_data`): each of the five fields may be
absent (`none`).  The symbol is kept as a plain string since it is only
ever passed through to the terminal. -/
structure Signal where
  symbol : Option String
  volume : Option JVal
  action : Option JVal
  tp : Option JVal
  sl : Option JVal
deriving DecidableEq, Repr

/-- `required_fields = ['symbol', 'volume', 'action', 'tp', 'sl']`. -/
def required_fields : List String := ["symbol", "volume", "action", "tp", "sl"]

/-- `field in signal_data` for the five field names used by the program. -/
def fieldPresent (sd : Signal) : String → Bool
  | "symbol" => sd.symbol.isSome
  | "volume" => sd.volume.isSome
  | "action" => sd.action.isSome
  | "tp" => sd.tp.isSome
  | "sl" => sd.sl.isSome
  | _ => false

/-- The validation loop: the first field of `required_fields` missing from
the signal, if any (`for field in required_fields: if field not in
signal_data: raise ValueError(...)`). -/
def firstMissing (sd : Signal) : Option String :=
  required_fields.find? (fun f => ! fieldPresent sd f)

/-- Account record returned by `mt5.account_info()`. -/
structure AccountInfo where
  login : Int
  server : String
  balance : ℚ
  equity : ℚ
deriving DecidableEq, Repr

/-- Instrument record returned by `mt5.symbol_info(symbol)`. -/
structure SymbolInfo where
  visible : Bool
deriving DecidableEq, Repr

/-- Quote snapshot returned by `mt5.symbol_info_tick(symbol)`. -/
structure Tick where
  ask : ℚ
  bid : ℚ
deriving DecidableEq, Repr

/-- MetaTrader5 named constants used by the program. -/
def TRADE_ACTION_DEAL : Int := 1
def ORDER_TYPE_BUY : Int := 0
def ORDER_TYPE_SELL : Int := 1
def ORDER_TIME_GTC : Int := 0
def ORDER_FILLING_IOC : Int := 1
def TRADE_RETCODE_DONE : Int := 10009

/-- The trade request dictionary built at lines 84–97 of the source. -/
structure OrderRequest where
  action : Int
  symbol : String
  volume : ℚ
  type : Int
  price : ℚ
  sl : ℚ
  tp : ℚ
  deviation : Int
  magic : Int
  comment : String
  type_time : Int
  type_filling : Int
deriving DecidableEq, Repr

/-- Result object returned by `mt5.order_send(request)`. -/
structure OrderResult where
  retcode : Int
  comment : String
  order : Int
  volume : ℚ
  price : ℚ
deriving DecidableEq, Repr

/-- The external terminal, modelled as its responses to the calls the
program can make.  `accountInfo` is `Except` because the identity query
may raise (the string is the exception's text); the other calls return
`None`/`False` on failure exactly as the program expects. -/
structure Terminal where
  initOk : Bool
  lastError : Int
  accountInfo : Except String (Option AccountInfo)
  symbolInfo : String → Option SymbolInfo
  symbolSelect : String → Bool
  tick : String → Option Tick
  orderSend : OrderRequest → OrderResult

/-- The kind tag carried in the `error` object of a failure response. -/
inductive ErrKind where
  | VALIDATION_ERROR
  | EXECUTION_ERROR
  | CONNECTION_ERROR
  | INVALID_JSON
deriving DecidableEq, Repr

/-- The single JSON object the process prints: one constructor per shape
the source can emit. -/
inductive Output where
  | initFailed (code : Int)
  | ok (ticket : Int) (volume : ℚ) (price : ℚ) (comment : String)
  | err (ty : ErrKind) (msg : String)
  | connOk (info : AccountInfo)
  | connNoAccount
deriving DecidableEq, Repr

/-- Observable behaviour of one process invocation: the JSON printed, the
exit status, the arguments of every `order_send` call made, and how many
times `mt5.shutdown()` was invoked. -/
structure Outcome where
  output : Output
  exitCode : ℕ
  sent : List OrderRequest
  shutdowns : ℕ
deriving Repr

/-- Lines 80–97: order side and reference price chosen by `action`, then
the request dictionary with the fixed policy constants. -/
def buildRequest (symbol : String) (volume : ℚ) (vAct : JVal) (tp sl : ℚ)
    (t : Tick) : OrderRequest :=
  { action := TRADE_ACTION_DEAL
    symbol := symbol
    volume := volume
    type := if jIsBUY vAct then ORDER_TYPE_BUY else ORDER_TYPE_SELL
    price := if jIsBUY vAct then t.ask else t.bid
    sl := sl
    tp := tp
    deviation := 10
    magic := 202504
    comment := "Teaka AutoExec"
    type_time := ORDER_TIME_GTC
    type_filling := ORDER_FILLING_IOC }

/-- A raised exception rendered by the matching handler of
`execute_trade`: `except ValueError` prints a VALIDATION_ERROR, the
generic `except Exception` prints an EXECUTION_ERROR with `str(e)`. -/
def excOutput : PyExc → Output
  | .valueError msg => .err .VALIDATION_ERROR msg
  | .typeError msg => .err .EXECUTION_ERROR msg

/-- Body of `execute_trade` after a successful `initialize_mt5` (lines
53–113): field validation in order, float coercion of volume, tp, sl,
symbol resolution and visibility, quote fetch, request construction and
submission.  Returns the output printed and the list of `order_send`
calls made. -/
def tradeBody (env : Terminal) (sd : Signal) : Output × List OrderRequest :=
  match sd.symbol with
  | none => (.err .VALIDATION_ERROR "Missing required field: symbol", [])
  | some symbol =>
  match sd.volume with
  | none => (.err .VALIDATION_ERROR "Missing required field: volume", [])
  | some vVol =>
  match sd.action with
  | none => (.err .VALIDATION_ERROR "Missing required field: action", [])
  | some vAct =>
  match sd.tp with
  | none => (.err .VALIDATION_ERROR "Missing required field: tp", [])
  | some vTp =>
  match sd.sl with
  | none => (.err .VALIDATION_ERROR "Missing required field: sl", [])
  | some vSl =>
  match pyFloat vVol with
  | .error e => (excOutput e, [])
  | .ok volume =>
  match pyFloat vTp with
  | .error e => (excOutput e, [])
  | .ok tp =>
  match pyFloat vSl with
  | .error e => (excOutput e, [])
  | .ok sl =>
  match env.symbolInfo symbol with
  | none => (.err .VALIDATION_ERROR ("Symbol " ++ symbol ++ " not found"), [])
  | some si =>
  if si.visible = false ∧ env.symbolSelect symbol = false then
    (.err .VALIDATION_ERROR ("Symbol " ++ symbol ++ " selection failed"), [])
  else
  match env.tick symbol with
  | none => (.err .VALIDATION_ERROR ("Failed to get price for " ++ symbol), [])
  | some t =>
    let req := buildRequest symbol volume vAct tp sl t
    let result := env.orderSend req
    if result.retcode ≠ TRADE_RETCODE_DONE then
      (.err .EXECUTION_ERROR ("Order failed: " ++ result.comment), [req])
    else
      (.ok result.order result.volume result.price result.comment, [req])

/-- `execute_trade(signal_data)` as a whole-process step: a failed
`initialize_mt5` prints the init-failure object, calls `shutdown` and
exits 1 (`sys.exit` raises `SystemExit`, which neither handler catches);
otherwise the body runs, every path of it prints one object, calls
`shutdown` once, and the process exits 0. -/
def execute_trade (env : Terminal) (sd : Signal) : Outcome :=
  if env.initOk then
    { output := (tradeBody env sd).1
      exitCode := 0
      sent := (tradeBody env sd).2
      shutdowns := 1 }
  else
    { output := .initFailed env.lastError, exitCode := 1, sent := [], shutdowns := 1 }

/-- `check_connection()` as a whole-process step.  On a failed
`initialize_mt5` the process exits 1 (shutdown already called).  On a
successful init, the account query either raises — the handler prints a
CONNECTION_ERROR and returns WITHOUT calling `mt5.shutdown()` — or
returns an account record or `None`, both printed followed by one
`shutdown`. -/
def check_connection (env : Terminal) : Outcome :=
  if env.initOk then
    match env.accountInfo with
    | .error msg =>
        { output := .err .CONNECTION_ERROR msg, exitCode := 0, sent := [], shutdowns := 0 }
    | .ok none =>
        { output := .connNoAccount, exitCode := 0, sent := [], shutdowns := 1 }
    | .ok (some info) =>
        { output := .connOk info, exitCode := 0, sent := [], shutdowns := 1 }
  else
    { output := .initFailed env.lastError, exitCode := 1, sent := [], shutdowns := 1 }

/-- How the process was invoked: with `--check-connection`, or without it,
in which case standard input either fails to parse as JSON
(`.trade (.error ())`) or yields a signal object. -/
inductive Invocation where
  | checkConnection
  | trade (stdin : Except Unit Signal)

/-- The `__main__` block: dispatch on the flag, and on the trade path
convert a JSON parse failure into the INVALID_JSON object (printed before
any terminal call, exit 0). -/
def main_run (env : Terminal) (inv : Invocation) : Outcome :=
  match inv with
  | .checkConnection => check_connection env
  | .trade (.error _) =>
      { output := .err .INVALID_JSON "Failed to parse signal data"
        exitCode := 0, sent := [], shutdowns := 0 }
  | .trade (.ok sd) => execute_trade env sd

/-- Whether the invocation reaches `initialize_mt5` (every path except
unparseable standard input). -/
def opensSession : Invocation → Bool
  | .trade (.error _) => false
  | _ => true

/-! Concrete instances used by the witness theorems. -/

/-- A terminal that accepts everything: init succeeds, an account is
logged in, every symbol resolves visible, quotes are available, and
orders fill completely. -/
def okTerminal : Terminal :=
  { initOk := true
    lastError := 0
    accountInfo := .ok (some ⟨12345, "Demo-Server", 1000, 995⟩)
    symbolInfo := fun _ => some ⟨true⟩
    symbolSelect := fun _ => true
    tick := fun _ => some ⟨6/5, 119/100⟩
    orderSend := fun req => ⟨TRADE_RETCODE_DONE, "done", 777, req.volume, req.price⟩ }

/-- A well-formed BUY signal. -/
def buySignal : Signal :=
  { symbol := some "EURUSD"
    volume := some (.num (1/10))
    action := some (.str "BUY")
    tp := some (.num (6/5))
    sl := some (.num (11/10)) }

/-- `jIsBUY` decides equality with the string value `"BUY"`. -/
theorem jIsBUY_iff (v : JVal) : jIsBUY v = true ↔ v = .str "BUY" := by
  cases v <;> simp [jIsBUY]

/-- On a signal that passes every check before submission, `tradeBody`
sends exactly the built request and renders the terminal's verdict. -/
theorem tradeBody_submit (env : Terminal) (sd : Signal)
    (symbol : String) (vVol vAct vTp vSl : JVal) (volume tp sl : ℚ)
    (si : SymbolInfo) (t : Tick)
    (h1 : sd.symbol = some symbol) (h2 : sd.volume = some vVol)
    (h3 : sd.action = some vAct) (h4 : sd.tp = some vTp) (h5 : sd.sl = some vSl)
    (hv : pyFloat vVol = .ok volume) (ht : pyFloat vTp = .ok tp)
    (hs : pyFloat vSl = .ok sl)
    (hsi : env.symbolInfo symbol = some si)
    (hvis : si.visible = true ∨ env.symbolSelect symbol = true)
    (htick : env.tick symbol = some t) :
    tradeBody env sd =
      (if (env.orderSend (buildRequest symbol volume vAct tp sl t)).retcode ≠ TRADE_RETCODE_DONE then
          Output.err .EXECUTION_ERROR
            ("Order failed: " ++ (env.orderSend (buildRequest symbol volume vAct tp sl t)).comment)
        else
          Output.ok (env.orderSend (buildRequest symbol volume vAct tp sl t)).order
            (env.orderSend (buildRequest symbol volume vAct tp sl t)).volume
            (env.orderSend (buildRequest symbol volume vAct tp sl t)).price
            (env.orderSend (buildRequest symbol volume vAct tp sl t)).comment,
        [buildRequest symbol volume vAct tp sl t]) := by
  have hcond : ¬(si.visible = false ∧ env.symbolSelect symbol = false) := by
    rcases hvis with h | h <;> simp [h]
  simp only [tradeBody, h1, h2, h3, h4, h5, hv, ht, hs, hsi, htick, hcond, if_neg,
    not_false_eq_true]
  split <;> rfl

/-- C1: a signal that passes validation (all five fields present and
coercible, symbol resolved and visible, quote available) is submitted via
`order_send` as a request holding exactly the signal's symbol, coerced
volume, sl and tp, the selected reference price, and the fixed policy
constants deviation 10, magic 202504, comment "Teaka AutoExec",
time-in-force GTC and fill policy IOC. -/
theorem C1_order_request_fields (env : Terminal) (sd : Signal)
    (symbol : String) (vVol vAct vTp vSl : JVal) (volume tp sl : ℚ)
    (si : SymbolInfo) (t : Tick)
    (hinit : env.initOk = true)
    (h1 : sd.symbol = some symbol) (h2 : sd.volume = some vVol)
    (h3 : sd.action = some vAct) (h4 : sd.tp = some vTp) (h5 : sd.sl = some vSl)
    (hv : pyFloat vVol = .ok volume) (ht : pyFloat vTp = .ok tp)
    (hs : pyFloat vSl = .ok sl)
    (hsi : env.symbolInfo symbol = some si) (hvis : si.visible = true)
    (htick : env.tick symbol = some t) :
    (execute_trade env sd).sent =
      [{ action := TRADE_ACTION_DEAL
         symbol := symbol
         volume := volume
         type := if jIsBUY vAct then ORDER_TYPE_BUY else ORDER_TYPE_SELL
         price := if jIsBUY vAct then t.ask else t.bid
         sl := sl
         tp := tp
         deviation := 10
         magic := 202504
         comment := "Teaka AutoExec"
         type_time := ORDER_TIME_GTC
         type_filling := ORDER_FILLING_IOC }] := by
  have h := tradeBody_submit env sd symbol vVol vAct vTp vSl volume tp sl si t
    h1 h2 h3 h4 h5 hv ht hs hsi (Or.inl hvis) htick
  simp [execute_trade, hinit, h, buildRequest]

/-- C1 witness: the BUY signal against the accepting terminal submits the
fully specified request. -/
theorem C1_order_request_fields_witness :
    (execute_trade okTerminal buySignal).sent =
      [{ action := TRADE_ACTION_DEAL
         symbol := "EURUSD"
         volume := 1/10
         type := ORDER_TYPE_BUY
         price := 6/5
         sl := 11/10
         tp := 6/5
         deviation := 10
         magic := 202504
         comment := "Teaka AutoExec"
         type_time := ORDER_TIME_GTC
         type_filling := ORDER_FILLING_IOC }] := by
  have h := C1_order_request_fields okTerminal buySignal
    "EURUSD" (.num (1/10)) (.str "BUY") (.num (6/5)) (.num (11/10))
    (1/10) (6/5) (11/10) ⟨true⟩ ⟨6/5, 119/100⟩
    rfl rfl rfl rfl rfl rfl rfl rfl rfl rfl rfl rfl
  simpa [jIsBUY] using h

/-- C2: for every signal reaching order construction, the order side and
reference price are chosen by the action field: the string "BUY" gives a
buy order at the quote's ask, and any other value — not only "SELL" —
gives a sell order at the quote's bid. -/
theorem C2_side_from_action (env : Terminal) (sd : Signal)
    (symbol : String) (vVol vAct vTp vSl : JVal) (volume tp sl : ℚ)
    (si : SymbolInfo) (t : Tick)
    (hinit : env.initOk = true)
    (h1 : sd.symbol = some symbol) (h2 : sd.volume = some vVol)
    (h3 : sd.action = some vAct) (h4 : sd.tp = some vTp) (h5 : sd.sl = some vSl)
    (hv : pyFloat vVol = .ok volume) (ht : pyFloat vTp = .ok tp)
    (hs : pyFloat vSl = .ok sl)
    (hsi : env.symbolInfo symbol = some si)
    (hvis : si.visible = true ∨ env.symbolSelect symbol = true)
    (htick : env.tick symbol = some t) :
    ∃ req, (execute_trade env sd).sent = [req] ∧
      (vAct = .str "BUY" → req.type = ORDER_TYPE_BUY ∧ req.price = t.ask) ∧
      (vAct ≠ .str "BUY" → req.type = ORDER_TYPE_SELL ∧ req.price = t.bid) := by
  have h := tradeBody_submit env sd symbol vVol vAct vTp vSl volume tp sl si t
    h1 h2 h3 h4 h5 hv ht hs hsi hvis htick
  refine ⟨buildRequest symbol volume vAct tp sl t, by simp [execute_trade, hinit, h], ?_, ?_⟩
  · intro hb
    have : jIsBUY vAct = true := (jIsBUY_iff vAct).mpr hb
    simp [buildRequest, this]
  · intro hb
    have : ¬ jIsBUY vAct = true := fun hc => hb ((jIsBUY_iff vAct).mp hc)
    simp only [Bool.not_eq_true] at this
    simp [buildRequest, this]

/-- C2 witness: a signal whose action is the string "HOLD" is still
submitted, as a sell order at the bid price. -/
theorem C2_side_from_action_witness :
    ∃ req,
      (execute_trade okTerminal
        { buySignal with action := some (.str "HOLD") }).sent = [req] ∧
      req.type = ORDER_TYPE_SELL ∧ req.price = 119/100 := by
  obtain ⟨req, hsent, _, hother⟩ := C2_side_from_action okTerminal
    { buySignal with action := some (.str "HOLD") }
    "EURUSD" (.num (1/10)) (.str "HOLD") (.num (6/5)) (.num (11/10))
    (1/10) (6/5) (11/10) ⟨true⟩ ⟨6/5, 119/100⟩
    rfl rfl rfl rfl rfl rfl rfl rfl rfl rfl (Or.inl rfl) rfl
  exact ⟨req, hsent, hother (by simp)⟩

/-- C3: a signal missing at least one of the five required fields yields
`{success: false, error: {type: VALIDATION_ERROR, message: "Missing
required field: <name>"}}`, where `<name>` is the first missing field in
the fixed order symbol, volume, action, tp, sl. -/
theorem C3_first_missing_field (env : Terminal) (sd : Signal) (f : String)
    (hinit : env.initOk = true) (hf : firstMissing sd = some f) :
    (execute_trade env sd).output =
      .err .VALIDATION_ERROR ("Missing required field: " ++ f) := by
  obtain ⟨s1, s2, s3, s4, s5⟩ := sd
  cases s1 <;> cases s2 <;> cases s3 <;> cases s4 <;> cases s5 <;>
    simp_all [execute_trade, tradeBody, firstMissing, required_fields, fieldPresent, hinit] <;>
    (subst hf; rfl)

/-- C3 witness: a signal with only symbol and action present is rejected
naming `volume`, the first missing field. -/
theorem C3_first_missing_field_witness :
    (execute_trade okTerminal
      { symbol := some "EURUSD", volume := none, action := some (.str "BUY")
        tp := none, sl := none }).output =
      .err .VALIDATION_ERROR "Missing required field: volume" :=
  C3_first_missing_field okTerminal
    { symbol := some "EURUSD", volume := none, action := some (.str "BUY")
      tp := none, sl := none } "volume" rfl rfl

/-- A fully populated signal whose volume field holds JSON `null`. -/
def nullVolumeSignal : Signal :=
  { symbol := some "EURUSD"
    volume := some .null
    action := some (.str "BUY")
    tp := some (.num (6/5))
    sl := some (.num (11/10)) }

/-- C4 counterexample: a signal with all five fields present whose volume
is JSON `null` is not parseable as floating-point, yet the executor
reports EXECUTION_ERROR, not VALIDATION_ERROR: `float(None)` raises
`TypeError`, which only the generic `except Exception` handler catches. -/
theorem C4_counterexample :
    firstMissing nullVolumeSignal = none ∧
    pyFloat JVal.null = .error (.typeError (floatTypeErrMsg "NoneType")) ∧
    (execute_trade okTerminal nullVolumeSignal).output =
      .err .EXECUTION_ERROR (floatTypeErrMsg "NoneType") :=
  ⟨rfl, rfl, rfl⟩

/-- C4 (amended): with all five fields present, when the first failing
coercion among volume, tp, sl (in that order) raises `ValueError` — the
value is a non-numeric string — the executor reports VALIDATION_ERROR
with the parse error's message.  (A non-numeric value of non-string type
raises `TypeError` instead and is reported as EXECUTION_ERROR.) -/
theorem C4_nonnumeric_string_validation (env : Terminal) (sd : Signal)
    (symbol : String) (vVol vAct vTp vSl : JVal) (m : String)
    (hinit : env.initOk = true)
    (h1 : sd.symbol = some symbol) (h2 : sd.volume = some vVol)
    (h3 : sd.action = some vAct) (h4 : sd.tp = some vTp) (h5 : sd.sl = some vSl)
    (hbad :
      pyFloat vVol = .error (.valueError m) ∨
      ((∃ q, pyFloat vVol = .ok q) ∧ pyFloat vTp = .error (.valueError m)) ∨
      ((∃ q, pyFloat vVol = .ok q) ∧ (∃ q, pyFloat vTp = .ok q) ∧
        pyFloat vSl = .error (.valueError m))) :
    (execute_trade env sd).output = .err .VALIDATION_ERROR m := by
  rcases hbad with hb | ⟨⟨qv, hv⟩, hb⟩ | ⟨⟨qv, hv⟩, ⟨qt, ht⟩, hb⟩
  · simp [execute_trade, hinit, tradeBody, h1, h2, h3, h4, h5, hb, excOutput]
  · simp [execute_trade, hinit, tradeBody, h1, h2, h3, h4, h5, hv, hb, excOutput]
  · simp [execute_trade, hinit, tradeBody, h1, h2, h3, h4, h5, hv, ht, hb, excOutput]

/-- C4 witness: a volume of string "abc" is rejected as VALIDATION_ERROR
with Python's float-parse message. -/
theorem C4_nonnumeric_string_validation_witness :
    (execute_trade okTerminal { buySignal with volume := some (.str "abc") }).output =
      .err .VALIDATION_ERROR "could not convert string to float: 'abc'" :=
  C4_nonnumeric_string_validation okTerminal
    { buySignal with volume := some (.str "abc") }
    "EURUSD" (.str "abc") (.str "BUY") (.num (6/5)) (.num (11/10))
    "could not convert string to float: 'abc'"
    rfl rfl rfl rfl rfl rfl (Or.inl rfl)

/-- A terminal identical to `okTerminal` except that `order_send` rejects
every request with retcode 10013 and comment "Requote". -/
def rejectTerminal : Terminal :=
  { okTerminal with orderSend := fun _ => ⟨10013, "Requote", 0, 0, 0⟩ }

/-- C5 counterexample: a rejected submission is reported with message
"Order failed: Requote", which is not the terminal's bare comment
"Requote" — the code prefixes the comment, so the message does not carry
exactly the platform's comment. -/
theorem C5_counterexample :
    (execute_trade rejectTerminal buySignal).output =
      .err .EXECUTION_ERROR "Order failed: Requote" ∧
    "Order failed: Requote" ≠ "Requote" :=
  ⟨rfl, by decide⟩

/-- C5 (amended): a submission whose returned status code is not
TRADE_RETCODE_DONE yields `{success: false, error: {type:
EXECUTION_ERROR, message: "Order failed: " ++ <terminal comment>}}` — the
platform's comment prefixed by "Order failed: ", not the bare comment. -/
theorem C5_execution_error_message (env : Terminal) (sd : Signal)
    (symbol : String) (vVol vAct vTp vSl : JVal) (volume tp sl : ℚ)
    (si : SymbolInfo) (t : Tick)
    (hinit : env.initOk = true)
    (h1 : sd.symbol = some symbol) (h2 : sd.volume = some vVol)
    (h3 : sd.action = some vAct) (h4 : sd.tp = some vTp) (h5 : sd.sl = some vSl)
    (hv : pyFloat vVol = .ok volume) (ht : pyFloat vTp = .ok tp)
    (hs : pyFloat vSl = .ok sl)
    (hsi : env.symbolInfo symbol = some si)
    (hvis : si.visible = true ∨ env.symbolSelect symbol = true)
    (htick : env.tick symbol = some t)
    (hret : (env.orderSend (buildRequest symbol volume vAct tp sl t)).retcode ≠
      TRADE_RETCODE_DONE) :
    (execute_trade env sd).output =
      .err .EXECUTION_ERROR
        ("Order failed: " ++ (env.orderSend (buildRequest symbol volume vAct tp sl t)).comment) := by
  have h := tradeBody_submit env sd symbol vVol vAct vTp vSl volume tp sl si t
    h1 h2 h3 h4 h5 hv ht hs hsi hvis htick
  simp [execute_trade, hinit, h, hret]

/-- C5 witness: the rejecting terminal's "Requote" comment appears after
the "Order failed: " prefix. -/
theorem C5_execution_error_message_witness :
    (execute_trade rejectTerminal buySignal).output =
      .err .EXECUTION_ERROR "Order failed: Requote" :=
  C5_execution_error_message rejectTerminal buySignal
    "EURUSD" (.num (1/10)) (.str "BUY") (.num (6/5)) (.num (11/10))
    (1/10) (6/5) (11/10) ⟨true⟩ ⟨6/5, 119/100⟩
    rfl rfl rfl rfl rfl rfl rfl rfl rfl rfl (Or.inl rfl) rfl (by decide)

/-- C6: the process exits 1 exactly when a session is attempted
(`--check-connection`, or a trade invocation whose input parsed) and
`initialize_mt5` fails; every other path — success, validation failure,
execution failure, connection-check failure, unparseable standard input —
exits 0. -/
theorem C6_exit_code (env : Terminal) (inv : Invocation) :
    (main_run env inv).exitCode =
      if opensSession inv = true ∧ env.initOk = false then 1 else 0 := by
  cases inv with
  | checkConnection =>
      cases hb : env.initOk
      · simp [main_run, check_connection, opensSession, hb]
      · rcases hacc : env.accountInfo with msg | v
        · simp [main_run, check_connection, opensSession, hb, hacc]
        · cases v <;> simp [main_run, check_connection, opensSession, hb, hacc]
  | trade st =>
      cases st with
      | error u => simp [main_run, opensSession]
      | ok sd =>
          cases hb : env.initOk <;>
            simp [main_run, execute_trade, opensSession, hb]

/-- C6 witness: a failed initialization on the trade path exits 1. -/
theorem C6_exit_code_witness :
    (main_run { okTerminal with initOk := false }
      (.trade (.ok buySignal))).exitCode = 1 := by
  rw [C6_exit_code]
  decide

/-- C7: the failing path — `--check-connection` against a terminal whose
identity query raises.  The session opens (`initOk = true`), the handler
prints a CONNECTION_ERROR, and the process ends with zero `shutdown`
calls: the session is left open, contradicting the guaranteed-release
claim. -/
theorem C7_checker_skips_shutdown :
    ({ okTerminal with accountInfo := .error "IPC timeout" } : Terminal).initOk = true ∧
    (check_connection { okTerminal with accountInfo := .error "IPC timeout" }).output =
      .err .CONNECTION_ERROR "IPC timeout" ∧
    (check_connection { okTerminal with accountInfo := .error "IPC timeout" }).shutdowns = 0 :=
  ⟨rfl, rfl, rfl⟩

/-- C8: after a successful open, the connection checker emits exactly one
of the three shapes: the account record's login/server/balance/equity
under `success: true`; `account_info: null` under `success: false` when
no account session exists; or a CONNECTION_ERROR carrying the exception's
message when the identity query raises. -/
theorem C8_checker_output_shapes (env : Terminal) (hinit : env.initOk = true) :
    (∀ info, env.accountInfo = .ok (some info) →
      (check_connection env).output = .connOk info) ∧
    (env.accountInfo = .ok none →
      (check_connection env).output = .connNoAccount) ∧
    (∀ msg, env.accountInfo = .error msg →
      (check_connection env).output = .err .CONNECTION_ERROR msg) := by
  refine ⟨?_, ?_, ?_⟩
  · intro info h
    simp [check_connection, hinit, h]
  · intro h
    simp [check_connection, hinit, h]
  · intro msg h
    simp [check_connection, hinit, h]

/-- C8 witness: the accepting terminal's account record is echoed. -/
theorem C8_checker_output_shapes_witness :
    (check_connection okTerminal).output = .connOk ⟨12345, "Demo-Server", 1000, 995⟩ :=
  (C8_checker_output_shapes okTerminal rfl).1 ⟨12345, "Demo-Server", 1000, 995⟩ rfl

/-- C9: the connection checker is a deterministic function of the
terminal's responses: two runs against terminals that opened successfully
and answer the identity query identically produce identical outcomes, in
particular identical `account_info` values. -/
theorem C9_checker_deterministic (env1 env2 : Terminal)
    (h1 : env1.initOk = true) (h2 : env2.initOk = true)
    (hsame : env1.accountInfo = env2.accountInfo) :
    check_connection env1 = check_connection env2 := by
  simp only [check_connection, h1, h2, hsame, if_true]

/-- C9 witness: two terminals differing only in `lastError` (unused after
a successful open) give the same checker outcome. -/
theorem C9_checker_deterministic_witness :
    check_connection okTerminal =
      check_connection { okTerminal with lastError := 99 } :=
  C9_checker_deterministic okTerminal { okTerminal with lastError := 99 } rfl rfl rfl

/-- The body of `execute_trade` performs at most one `order_send` call,
and none on any path whose output is a VALIDATION_ERROR. -/
theorem tradeBody_sent_spec (env : Terminal) (sd : Signal) :
    (tradeBody env sd).2.length ≤ 1 ∧
    (∀ msg, (tradeBody env sd).1 = .err .VALIDATION_ERROR msg →
      (tradeBody env sd).2 = []) := by
  unfold tradeBody
  repeat' split
  all_goals simp_all
  all_goals (split <;> simp_all)

/-- C10: every invocation of the trade executor calls `order_send` at most
once, and never on a path that reports a VALIDATION_ERROR: all
validation (field presence, coercion, symbol resolution, quote fetch)
precedes the single submission. -/
theorem C10_order_send_at_most_once (env : Terminal) (sd : Signal) :
    (execute_trade env sd).sent.length ≤ 1 ∧
    (∀ msg, (execute_trade env sd).output = .err .VALIDATION_ERROR msg →
      (execute_trade env sd).sent = []) := by
  cases hb : env.initOk
  · simp [execute_trade, hb]
  · have h := tradeBody_sent_spec env sd
    simpa [execute_trade, hb] using h

/-- C10 witness: a signal rejected for a missing field sent no order. -/
theorem C10_order_send_at_most_once_witness :
    (execute_trade okTerminal
      { symbol := some "EURUSD", volume := none, action := some (.str "BUY")
        tp := none, sl := none }).sent = [] :=
  (C10_order_send_at_most_once okTerminal
    { symbol := some "EURUSD", volume := none, action := some (.str "BUY")
      tp := none, sl := none }).2 "Missing required field: volume" rfl

end MT5
